import Mathlib

/-!
Shallow embedding of the filament-handling modules of the RF50-Klipper
repository (src/extras/cutter_sensor.py and src/extras/unload_filament.py).

The two Python classes are modelled as pure transition functions over explicit
state records.  External collaborators (reactor, toolhead, heaters, gcode
console, sibling printer objects) are represented by an environment record of
the values their queries return during one run, and every command issued to
them is recorded in an ordered effect trace.  Exceptions raised by a
collaborator are modelled by boolean failure flags in the environment and an
`Outcome` result; a raising call aborts the enclosing operation exactly where
the Python exception would propagate.

Reactor time is a rational number of monotonic seconds.  The reactor constants
are modelled by `RTime`: `RTime.never` is `reactor.NEVER` and `RTime.fin 0` is
`reactor.NOW` (klipper defines `NOW = 0.`, so `NOW + 5.0` is `RTime.fin (0 + 5)`).
-/

/-- Reactor clock values: a finite monotonic time or the NEVER sentinel. -/
inductive RTime where
  | fin (t : ℚ)
  | never
  deriving DecidableEq

/-- Comparison `t < deadline` used for `eventtime < self.min_event_systime`:
the NEVER sentinel compares above every finite time. -/
def RTime.ltTime (t : ℚ) : RTime → Bool
  | RTime.fin d => decide (t < d)
  | RTime.never => true

/-- Result of a call that may raise a Python exception. -/
inductive Outcome where
  | ok
  | err (msg : String)
  deriving DecidableEq

def Outcome.isErr : Outcome → Bool
  | Outcome.ok => false
  | Outcome.err _ => true

/-- The reactor timers registered by the two modules. -/
inductive TimerId where
  | unextrudeToSensor  -- CutterSensor.unextrude_to_sensor_timer
  | unextrude          -- UnloadFilament.unextrude_timer
  | verifyFlow         -- UnloadFilament.verify_flow_sensor_timer
  | verifySwitch       -- UnloadFilament.verify_switch_sensor_timer
  deriving DecidableEq

/-- Callbacks handed to `reactor.register_callback`. -/
inductive CallbackId where
  | insertHandler
  | runoutHandler
  | unloadEnd
  | cutCall (return_last_pos : Bool) (off_heaters : Bool) (temp : ℚ)
  deriving DecidableEq

/-- A toolhead position (x, y, z, e). -/
structure Pos where
  x : ℚ
  y : ℚ
  z : ℚ
  e : ℚ
  deriving DecidableEq

/-- Commands issued to the external collaborators, in program order. -/
inductive Effect where
  | respondInfo (msg : String)
  | runScript (s : String)
  | sendEvent (topic : String)
  | updateTimer (timer : TimerId) (waketime : RTime)
  | registerCallback (cb : CallbackId)
  | setTemperature (temp : ℚ) (wait : Bool)
  | waitCompletion
  | waitMoves
  | manualMove2 (x y speed : ℚ)
  | manualMove3 (x y z speed : ℚ)
  | manualMove4 (x y z e speed : ℚ)
  | move4 (x y z e speed : ℚ)
  | setSensorEnabled (sensor : String) (value : Int)
  | setCustomBoundary
  | restoreDefaultBoundary
  | moveToBucketCall
  | setRelativeCoord
  | logInfo (msg : String)
  | reactorPause
  | sendPauseCommand
  deriving DecidableEq

/-- Sequence steps that each produce an outcome and a trace: an error aborts
the rest of the sequence, mirroring Python exception propagation through a
straight-line method body. -/
def seqSteps : List (Outcome × List Effect) → Outcome × List Effect
  | [] => (Outcome.ok, [])
  | (o, tr) :: rest =>
    match o with
    | Outcome.err m => (Outcome.err m, tr)
    | Outcome.ok =>
      let r := seqSteps rest
      (r.1, tr ++ r.2)

namespace CutterSensor

/-- Configuration of `[cutter_sensor]` (cutter_sensor.py, __init__).
Gcode templates are modelled by whether they are configured; presence of the
`bed_custom_bound` object (looked up in handle_ready) by a boolean. -/
structure Cfg where
  extrude_length_mm : ℚ
  retract_length_mm : ℚ
  retract_to_cutter_sensor : ℚ
  extrude_speed : ℚ
  travel_speed : ℚ
  cut_speed : ℚ
  cutter_position : ℚ × ℚ
  pre_cutter_position : ℚ × ℚ
  bucked_position_xy : Option (ℚ × ℚ)
  insert_gcode : Bool
  runout_gcode : Bool
  event_delay : ℚ
  pause_delay : ℚ
  runout_pause : Bool
  custom_boundary : Bool
  deriving DecidableEq

/-- Mutable attributes of a CutterSensor instance. -/
structure State where
  filament_present : Bool
  sensor_enabled : Int
  min_event_systime : RTime
  is_cutting : Bool
  unextrude_to_sensor_timer : RTime
  prev_pos : Option Pos
  deriving DecidableEq

/-- Values returned by the collaborators queried during one `cut` run.
`homed` feeds the check inside `home_needed`; `homed_after` the re-check at
the top of `cut` after `home_needed` returned.  The `_raises` flags model a
collaborator call raising. -/
structure CutEnv where
  toolhead : Bool
  monotonic : ℚ
  homed : Bool
  home_raises : Bool
  homed_after : Bool
  shutdown : Bool
  heat_polls : Nat
  heat_raises : Bool
  move_raises : Bool
  pos : Pos
  extrude_factor : ℚ
  deriving DecidableEq

/-- CutterSensor.home_needed: respond, then home with G28 when not homed.
Any failure is re-raised as a CutterSensorError. -/
def home_needed (env : CutEnv) : Outcome × List Effect :=
  if env.toolhead = false then
    (Outcome.err "Toolhead object is missing, called on home_needed.", [])
  else if env.homed then (Outcome.ok, [Effect.respondInfo "Printer already homed."])
  else if env.home_raises then
    (Outcome.err "Unable to home", [Effect.respondInfo "Homing."])
  else
    (Outcome.ok, [Effect.respondInfo "Homing.", Effect.runScript "G28\nM400"])

/-- Trace of the temperature-stabilisation busy-wait of
CutterSensor.heat_and_wait: one respond per poll, a reactor pause between
polls, the final poll finding the temperature in range. -/
def pollTrace : Nat → List Effect
  | 0 => [Effect.respondInfo "Waiting for temperature to stabilize."]
  | n + 1 =>
    Effect.respondInfo "Waiting for temperature to stabilize." ::
      Effect.reactorPause :: pollTrace n

/-- CutterSensor.heat_and_wait: set the target (never waiting at the heater),
then poll while not shut down. -/
def heat_and_wait (env : CutEnv) (temp : ℚ) (wait : Bool) : Outcome × List Effect :=
  if env.heat_raises then (Outcome.err "Error heating extruder", [])
  else if wait && !env.shutdown then
    (Outcome.ok, Effect.setTemperature temp false :: pollTrace env.heat_polls)
  else (Outcome.ok, [Effect.setTemperature temp false])

/-- CutterSensor.move_extruder_mm: relative extruder move issued as a
4-coordinate `toolhead.move`, scaled by the extrude factor. -/
def move_extruder_mm (env : CutEnv) (distance speed : ℚ) (wait : Bool) :
    Outcome × List Effect :=
  if env.toolhead = false then (Outcome.ok, [])
  else if env.move_raises then
    (Outcome.err "[CUTTER] Unable to move extruder error", [])
  else
    (Outcome.ok,
      Effect.move4 env.pos.x env.pos.y env.pos.z
          (distance * env.extrude_factor + env.pos.e) speed ::
        if wait then [Effect.waitMoves] else [])

/-- CutterSensor.cut_move: travel to the cutter position, stroke through the
pre-cutter position at cut speed, wait. -/
def cut_move (cfg : Cfg) (env : CutEnv) : Outcome × List Effect :=
  if env.move_raises then (Outcome.err "Error performing performing cut move", [])
  else
    (Outcome.ok,
      [Effect.manualMove2 cfg.cutter_position.1 cfg.cutter_position.2 cfg.travel_speed,
       Effect.manualMove2 cfg.pre_cutter_position.1 cfg.pre_cutter_position.2 cfg.cut_speed,
       Effect.waitMoves])

/-- CutterSensor.move_to_cutter_pos: silently returns when not homed,
otherwise travels to the pre-cutter position. -/
def move_to_cutter_pos (cfg : Cfg) (env : CutEnv) : Outcome × List Effect :=
  if env.homed_after = false then (Outcome.ok, [])
  else if env.move_raises then (Outcome.err "Error moving to cutter position", [])
  else
    (Outcome.ok,
      [Effect.manualMove2 cfg.pre_cutter_position.1 cfg.pre_cutter_position.2 cfg.travel_speed,
       Effect.waitMoves])

/-- CutterSensor.move_to_bucket (split=False path): restore default bounds
when a custom boundary object exists, then travel to the bucket. -/
def move_to_bucket (cfg : Cfg) (env : CutEnv) (b1 b2 : ℚ) : Outcome × List Effect :=
  let pre :=
    if cfg.custom_boundary then
      [Effect.respondInfo "Restoring original printer Boundaries.",
       Effect.restoreDefaultBoundary]
    else []
  if env.move_raises then (Outcome.err "Error moving to bucket position", pre)
  else (Outcome.ok, pre ++ [Effect.manualMove2 b1 b2 cfg.travel_speed, Effect.waitMoves])

/-- CutterSensor.move_back: replay the saved x/y/z position. -/
def move_back (cfg : Cfg) (env : CutEnv) (prev : Option Pos) : Outcome × List Effect :=
  match prev with
  | none => (Outcome.ok, [])
  | some p =>
    if env.move_raises then (Outcome.err "Error moving to the original position", [])
    else (Outcome.ok, [Effect.manualMove3 p.x p.y p.z cfg.travel_speed, Effect.waitMoves])

/-- The bucket staging step of `cut`: only performed when a bucket position is
configured. -/
def bucketStep (cfg : Cfg) (env : CutEnv) : Outcome × List Effect :=
  match cfg.bucked_position_xy with
  | some p => move_to_bucket cfg env p.1 p.2
  | none => (Outcome.ok, [])

/-- CutterSensor.cut (cutter_sensor.py lines 152-221), translated line by
line.  The guard `is_cutting` is set immediately after the re-entrancy check
and is never cleared inside `cut` itself: the not-homed early return, every
raising step, and normal completion all leave it true (it is later cleared by
`cutter_sensor_callback` when the sensor reports the filament gone). -/
def cut (cfg : Cfg) (env : CutEnv) (st : State)
    (return_last_pos off_heaters : Bool) (temp : ℚ) :
    Outcome × State × List Effect :=
  if st.is_cutting then
    (Outcome.ok, st, [Effect.respondInfo "[CUTTER] Already cutting filament"])
  else
    let st1 : State := { st with is_cutting := true }
    match home_needed env with
    | (Outcome.err m, tr) => (Outcome.err m, st1, tr)
    | (Outcome.ok, tr0) =>
      let tr1 := tr0 ++ [Effect.waitMoves]
      if env.homed_after = false then
        (Outcome.ok, st1,
          tr1 ++ [Effect.respondInfo "[CUTTER] Printer needs to be homed for filament cutting."])
      else
        let st2 : State := { st1 with prev_pos := some env.pos }
        let tr2 := tr1 ++
          [Effect.runScript "G90\nM400", Effect.runScript "M83\nM400",
           Effect.runScript "G92 E0.0\nM400",
           Effect.respondInfo "[CUTTER] Heating extruder."]
        let mid := seqSteps
          [heat_and_wait env temp true,
           bucketStep cfg env,
           move_extruder_mm env 10 cfg.extrude_speed false,
           move_extruder_mm env cfg.retract_length_mm cfg.extrude_speed false,
           move_to_cutter_pos cfg env,
           cut_move cfg env,
           bucketStep cfg env,
           move_extruder_mm env (-2) cfg.extrude_speed false,
           move_extruder_mm env (cfg.extrude_length_mm + 10) cfg.extrude_speed false]
        match mid with
        | (Outcome.err m, trm) => (Outcome.err m, st2, tr2 ++ trm)
        | (Outcome.ok, trm) =>
          let st3 : State := { st2 with unextrude_to_sensor_timer := RTime.fin 0 }
          let tr4 := tr2 ++ trm ++
            [Effect.updateTimer TimerId.unextrudeToSensor (RTime.fin 0)]
          let tail1 :=
            if st3.prev_pos.isSome && return_last_pos then
              seqSteps
                [move_back cfg env st3.prev_pos,
                 (Outcome.ok, [Effect.waitMoves]),
                 (Outcome.ok, if cfg.custom_boundary then [Effect.setCustomBoundary] else [])]
            else (Outcome.ok, [])
          match tail1 with
          | (Outcome.err m, trt) => (Outcome.err m, st3, tr4 ++ trt)
          | (Outcome.ok, trt) =>
            match (if off_heaters then heat_and_wait env 0 false else (Outcome.ok, [])) with
            | (Outcome.err m, tro) => (Outcome.err m, st3, tr4 ++ trt ++ tro)
            | (Outcome.ok, tro) => (Outcome.ok, st3, tr4 ++ trt ++ tro)

/-- CutterSensor.unextrude: the background push-to-sensor timer callback.
Returns the timer's next waketime. -/
def unextrude (cfg : Cfg) (env : CutEnv) (st : State) (eventtime : ℚ) :
    Outcome × RTime × List Effect :=
  if st.is_cutting = false then (Outcome.ok, RTime.never, [])
  else
    match move_extruder_mm env (-10) cfg.extrude_speed false with
    | (Outcome.err m, tr) => (Outcome.err ("[CUTTER] Error Unextruding: " ++ m), RTime.never, tr)
    | (Outcome.ok, tr) =>
      (Outcome.ok, RTime.fin (eventtime + 10 / cfg.extrude_speed), tr)

/-- Collaborator answers consumed by `cutter_sensor_callback`: the sibling
load/unload objects are optional and carry their started flag. -/
structure SensorEnv where
  monotonic : ℚ
  print_stats_exists : Bool
  print_stats_printing : Bool
  idle_timeout_printing : Bool
  load_obj : Option Bool
  unload_obj : Option Bool
  deriving DecidableEq

/-- Python truthiness of an optional started flag:
`obj is not None and obj.started`. -/
def activeFlag : Option Bool → Bool
  | some b => b
  | none => false

/-- The mode-normalisation scripts run at the end of every dispatched event
(cutter_sensor.py lines 462-464). -/
def normalizeScripts : List Effect :=
  [Effect.runScript "G90\nM400", Effect.runScript "M83\nM400",
   Effect.runScript "G92 E0.0\nM400"]

/-- CutterSensor.cutter_sensor_callback (lines 379-464), translated branch by
branch.  Note that `filament_present` is assigned before the Quiet Period
check, and that the commented-out `or not self.sensor_enabled` clause means
`sensor_enabled` is never consulted. -/
def cutter_sensor_callback (cfg : Cfg) (st : State) (env : SensorEnv) (state : Bool) :
    State × List Effect :=
  if state = st.filament_present then (st, [])
  else
    let st := { st with filament_present := state }
    if RTime.ltTime env.monotonic st.min_event_systime then (st, [])
    else
      let is_printing_print_stats := env.print_stats_exists && env.print_stats_printing
      let is_printing_idle_timeout := env.idle_timeout_printing
      if activeFlag env.load_obj || activeFlag env.unload_obj then
        if state then
          (st, Effect.sendEvent "cutter_sensor:filament_present" :: normalizeScripts)
        else
          if st.is_cutting then
            ({ st with is_cutting := false, unextrude_to_sensor_timer := RTime.never },
              [Effect.updateTimer TimerId.unextrudeToSensor RTime.never,
               Effect.respondInfo "[CUTTER] Cut done.",
               Effect.sendEvent "cutter_sensor:no_filament"] ++ normalizeScripts)
          else
            (st, Effect.sendEvent "cutter_sensor:no_filament" :: normalizeScripts)
      else if state then
        if !is_printing_idle_timeout && !is_printing_print_stats && cfg.insert_gcode then
          ({ st with min_event_systime := RTime.never },
            [Effect.sendEvent "cutter_sensor:filament_present",
             Effect.logInfo "[CUTTER] FILAMENT DETECTED",
             Effect.registerCallback CallbackId.insertHandler] ++ normalizeScripts)
        else (st, normalizeScripts)
      else if !is_printing_idle_timeout && !is_printing_print_stats && cfg.runout_gcode then
        if st.is_cutting then
          ({ st with is_cutting := false, unextrude_to_sensor_timer := RTime.never,
                     min_event_systime := RTime.never },
            [Effect.updateTimer TimerId.unextrudeToSensor RTime.never,
             Effect.sendEvent "cutter_sensor:no_filament",
             Effect.logInfo "[CUTTER] NO FILAMENT",
             Effect.registerCallback CallbackId.runoutHandler] ++ normalizeScripts)
        else
          ({ st with min_event_systime := RTime.never },
            [Effect.sendEvent "cutter_sensor:no_filament",
             Effect.logInfo "[CUTTER] NO FILAMENT",
             Effect.registerCallback CallbackId.runoutHandler] ++ normalizeScripts)
      else if is_printing_idle_timeout && is_printing_print_stats && cfg.runout_gcode then
        ({ st with min_event_systime := RTime.never },
          [Effect.sendEvent "cutter_sensor:no_filament",
           Effect.logInfo "[CUTTER] NO FILAMENT",
           Effect.registerCallback CallbackId.runoutHandler] ++ normalizeScripts)
      else (st, normalizeScripts)

/-- CutterSensor._exec_gcode: attempt the macro script (failures are caught
and logged), then always push the Quiet Period deadline to
`monotonic + event_delay`. -/
def exec_gcode (cfg : Cfg) (st : State) (monotonic : ℚ)
    (pre template : String) (script_fails : Bool) : State × List Effect :=
  ({ st with min_event_systime := RTime.fin (monotonic + cfg.event_delay) },
    Effect.runScript (pre ++ template ++ "\nM400") ::
      if script_fails then [Effect.logInfo "Script running error"] else [])

/-- CutterSensor.get_status: filament_detect and enabled (bool of the int). -/
def get_status (st : State) : Bool × Bool :=
  (st.filament_present, st.sensor_enabled != 0)

/-- CutterSensor.cmd_SET_FILAMENT_SENSOR: store the ENABLE integer. -/
def cmd_SET_FILAMENT_SENSOR (st : State) (enable : Int) : State :=
  { st with sensor_enabled := enable }

end CutterSensor

namespace UnloadFilament

/-- Configuration of `[unload_filament]` (unload_filament.py, __init__),
together with which optional collaborator objects resolved in handle_ready:
`cutter` is `cutter_object is not None`, `flow_sensor` and `switch_sensor`
the analogous sensor objects, `bucket` the bucket object. -/
structure Cfg where
  idex : Bool
  has_custom_boundary : Bool
  travel_speed : ℚ
  bucket : Bool
  park : Option (ℚ × ℚ)
  unload_speed : ℚ
  timeout : Option Nat
  cutter : Bool
  flow_sensor : Bool
  switch_sensor : Bool
  deriving DecidableEq

/-- Mutable attributes of an UnloadFilament instance.  The timer fields hold
each registered timer's current waketime (all start at NEVER). -/
structure State where
  unload_started : Bool
  unextrude_count : Nat
  unextrude_timer : RTime
  verify_flow_timer : RTime
  verify_switch_timer : RTime
  deriving DecidableEq

/-- Values returned by the collaborators queried during one unload run.
`idle_printing`, `is_paused`, `has_file` and `pause_macro` feed
`conditional_pause`; `switch_detected` is the switch sensor reading. -/
structure Env where
  toolhead : Bool
  homed : Bool
  home_raises : Bool
  heat_raises : Bool
  bucket_move_raises : Bool
  move_raises : Bool
  idle_printing : Bool
  is_paused : Bool
  has_file : Bool
  pause_macro : Bool
  idle_or_pause_missing : Bool
  switch_detected : Bool
  pos : Pos
  extrude_factor : ℚ
  deriving DecidableEq

/-- UnloadFilament.home_needed: silent when already homed, otherwise G28
(without M400); failures become an UnloadFilamentError. -/
def home_needed (env : Env) : Outcome × List Effect :=
  if env.toolhead = false then (Outcome.ok, [])
  else if env.homed then (Outcome.ok, [])
  else if env.home_raises then (Outcome.err "[UNLOAD FILAMENT] Error homing", [])
  else (Outcome.ok, [Effect.runScript "G28"])

/-- UnloadFilament.heat_and_wait: a single set_temperature call carrying the
wait flag (the manual polling loop in the source is commented out). -/
def heat_and_wait (env : Env) (temp : ℚ) (wait : Bool) : Outcome × List Effect :=
  if env.heat_raises then (Outcome.err "Error heating extruder", [])
  else (Outcome.ok, [Effect.setTemperature temp wait])

/-- UnloadFilament.save_state: dual-carriage snapshot first when IDEX, then
the gcode state snapshot. -/
def save_state_trace (cfg : Cfg) : List Effect :=
  (if cfg.idex then
    [Effect.runScript "SAVE_DUAL_CARRIAGE_STATE NAME=unload_carriage_state\nM400"]
  else []) ++
  [Effect.runScript "SAVE_GCODE_STATE NAME=_UNLOAD_STATE\nM400"]

/-- UnloadFilament.restore_state: pop the gcode state, then the dual-carriage
state when IDEX. -/
def restore_state_trace (cfg : Cfg) : List Effect :=
  [Effect.runScript "RESTORE_GCODE_STATE NAME=_UNLOAD_STATE MOVE=1 MOVE_SPEED=100\nM400"] ++
  (if cfg.idex then
    [Effect.runScript "RESTORE_DUAL_CARRIAGE_STATE NAME=unload_carriage_state MOVE=0\nM400"]
  else [])

/-- UnloadFilament.disable_sensors: zero the runout helpers' enable flags. -/
def disable_sensors_trace (cfg : Cfg) : List Effect :=
  (if cfg.flow_sensor then [Effect.setSensorEnabled "flow" 0] else []) ++
  (if cfg.switch_sensor then
    [Effect.setSensorEnabled "switch" 0,
     Effect.respondInfo "filament switch sensor is not enabled"]
  else [])

/-- UnloadFilament.move_extruder_mm: switch gcode_move to relative
coordinates, then a 4-coordinate manual_move at speed*60. -/
def move_extruder_mm (env : Env) (distance speed : ℚ) (wait : Bool) :
    Outcome × List Effect :=
  if env.toolhead = false then (Outcome.ok, [])
  else if env.move_raises then
    (Outcome.err "[UNLOAD FILAMENT] Error moving extruder", [])
  else
    (Outcome.ok,
      Effect.setRelativeCoord ::
        Effect.manualMove4 env.pos.x env.pos.y env.pos.z
          (distance * env.extrude_factor + env.pos.e) (speed * 60) ::
        if wait then [Effect.waitMoves] else [])

/-- UnloadFilament.unload_end (lines 156-187): the idempotent completion
routine.  A call with the guard already clear is a no-op returning False;
otherwise the guard is cleared first and the full completion sequence runs. -/
def unload_end (cfg : Cfg) (st : State) : Bool × State × List Effect :=
  if st.unload_started = false then (false, st, [])
  else
    let st1 : State := { st with unload_started := false }
    (true, st1,
      [Effect.sendEvent "unload_filament:end", Effect.waitMoves,
       Effect.runScript "G91\nM400", Effect.runScript "M83\nM400",
       Effect.runScript "G92 E0.0\nM400", Effect.runScript "M82\nM400",
       Effect.waitMoves, Effect.respondInfo "Cooling down extruder"] ++
      restore_state_trace cfg ++
      (if cfg.has_custom_boundary then [Effect.setCustomBoundary] else []) ++
      [Effect.setTemperature 0 false] ++
      (if cfg.idex then
        [Effect.respondInfo "Parking toolhead 0", Effect.runScript "T0 PARK\nM400"]
      else []) ++
      [Effect.waitMoves, Effect.respondInfo "[UNLOAD FILAMENT] Finished."])

/-- Result of one timer-callback invocation: outcome, new module state, the
waketime the callback returns to the reactor, and the trace it produced. -/
structure TimerStep where
  outcome : Outcome
  state : State
  next : RTime
  trace : List Effect

/-- UnloadFilament.unextrude (lines 189-210): the retraction pulse timer.
When a pulse budget (timeout) is configured and the counter exceeds it, the
switch-verification timer is cancelled and unload_end is registered and
waited for (so it runs before the callback returns); otherwise the counter
is incremented and one -10mm pulse is issued, rescheduling after
10/unload_speed seconds. -/
def unextrude (cfg : Cfg) (env : Env) (st : State) (eventtime : ℚ) : TimerStep :=
  if st.unload_started = false then ⟨Outcome.ok, st, RTime.never, []⟩
  else
    match cfg.timeout with
    | some n =>
      if st.unextrude_count > n then
        let stA : State := { st with verify_switch_timer := RTime.never }
        let r := unload_end cfg stA
        ⟨Outcome.ok, r.2.1, RTime.never,
          Effect.updateTimer TimerId.verifySwitch RTime.never ::
            Effect.registerCallback CallbackId.unloadEnd ::
            (r.2.2 ++ [Effect.waitCompletion])⟩
      else
        let st1 : State := { st with unextrude_count := st.unextrude_count + 1 }
        match move_extruder_mm env (-10) cfg.unload_speed false with
        | (Outcome.err m, tr) =>
          ⟨Outcome.err ("[UNLOAD FILAMENT] Error while unloading: " ++ m), st1,
            RTime.never, tr⟩
        | (Outcome.ok, tr) =>
          ⟨Outcome.ok, st1, RTime.fin (eventtime + 10 / cfg.unload_speed), tr⟩
    | none =>
      match move_extruder_mm env (-10) cfg.unload_speed false with
      | (Outcome.err m, tr) =>
        ⟨Outcome.err ("[UNLOAD FILAMENT] Error while unloading: " ++ m), st,
          RTime.never, tr⟩
      | (Outcome.ok, tr) =>
        ⟨Outcome.ok, st, RTime.fin (eventtime + 10 / cfg.unload_speed), tr⟩

/-- UnloadFilament.verify_switch_sensor_state (lines 123-137): while the end
switch still sees filament, re-poll after 1.25s; the instant it reports
absent, cancel the retraction timer and schedule unload_end. -/
def verify_switch_sensor_state (cfg : Cfg) (env : Env) (st : State) (eventtime : ℚ) :
    TimerStep :=
  if st.unload_started = false then ⟨Outcome.ok, st, RTime.never, []⟩
  else if env.switch_detected then ⟨Outcome.ok, st, RTime.fin (eventtime + 5/4), []⟩
  else
    ⟨Outcome.ok, { st with unextrude_timer := RTime.never }, RTime.never,
      [Effect.updateTimer TimerId.unextrude RTime.never,
       Effect.registerCallback CallbackId.unloadEnd]⟩

/-- UnloadFilament.conditional_pause (lines 323-338): issue PAUSE only when
printing, not paused, an unload is in progress, and a file is active.  The
virtual_sdcard object is assumed registered (its lookup would raise at
startup otherwise); the PAUSE macro lookup raises when the macro is absent. -/
def conditional_pause (env : Env) (st : State) : Outcome × Option Bool × List Effect :=
  if env.idle_or_pause_missing then (Outcome.ok, none, [])
  else if env.idle_printing && !env.is_paused && st.unload_started && env.has_file then
    if env.pause_macro then (Outcome.ok, some false, [Effect.runScript "PAUSE"])
    else (Outcome.err "lookup_object gcode_macro PAUSE", none, [])
  else (Outcome.ok, some false, [])

/-- Message wrapping of the catch-all except clause of cmd_UNLOAD_FILAMENT. -/
def wrapU (m : String) : String :=
  "[UNLOAD] Unexpected error while trying to unload filament: " ++ m

/-- UnloadFilament.cmd_UNLOAD_FILAMENT (lines 363-435), translated step by
step.  Print state is never consulted; the guard is set after the IDEX tool
selection and before heating; a raising step aborts with the state reached at
that point (in particular with the guard still true once it has been set). -/
def cmd_UNLOAD_FILAMENT (cfg : Cfg) (env : Env) (st : State)
    (temp : ℚ) (toolheadArg : Option String) : Outcome × State × List Effect :=
  if env.toolhead = false then (Outcome.ok, st, [])
  else if st.unload_started then
    (Outcome.ok, st, [Effect.respondInfo "Printer already unloading filament"])
  else
    match home_needed env with
    | (Outcome.err m, tr) => (Outcome.err (wrapU m), st, tr)
    | (Outcome.ok, trH) =>
      let trS := trH ++ save_state_trace cfg ++ disable_sensors_trace cfg
      match (if cfg.idex then
              match toolheadArg with
              | none => (Outcome.err "gcmd.get TOOLHEAD", ([] : List Effect))
              | some s =>
                (Outcome.ok,
                  [Effect.runScript (if s = "Load_T0" then "T0 UNLOAD" else "T1 UNLOAD")])
             else (Outcome.ok, [])) with
      | (Outcome.err m, trI) => (Outcome.err (wrapU m), st, trS ++ trI)
      | (Outcome.ok, trI) =>
        let st1 : State := { st with unload_started := true }
        let tr1 := trS ++ trI ++
          [Effect.sendEvent "unload_filament:start",
           Effect.respondInfo "[UNLOAD FILAMENT] Start",
           Effect.runScript "G91\nM400", Effect.runScript "M83\nM400"]
        let st2 : State := if cfg.timeout.isSome then { st1 with unextrude_count := 0 } else st1
        match heat_and_wait env temp false with
        | (Outcome.err m, trh) => (Outcome.err (wrapU m), st2, tr1 ++ trh)
        | (Outcome.ok, trh) =>
          match (if cfg.bucket then
                  (if env.bucket_move_raises then
                    (Outcome.err "Error moving to bucket", ([] : List Effect))
                  else (Outcome.ok, [Effect.moveToBucketCall]))
                 else (Outcome.ok, [])) with
          | (Outcome.err m, trb) => (Outcome.err (wrapU m), st2, tr1 ++ trh ++ trb)
          | (Outcome.ok, trb) =>
            match heat_and_wait env temp true with
            | (Outcome.err m, trh2) =>
              (Outcome.err (wrapU m), st2, tr1 ++ trh ++ trb ++ trh2)
            | (Outcome.ok, trh2) =>
              let tr2 := tr1 ++ trh ++ trb ++ trh2 ++ [Effect.waitMoves]
              let cutterSeg : List Effect :=
                if cfg.cutter then
                  [Effect.registerCallback (CallbackId.cutCall false false temp),
                   Effect.waitCompletion]
                else []
              let timerArm : State × List Effect :=
                if !cfg.cutter && cfg.timeout.isSome then
                  if cfg.flow_sensor then
                    ({ st2 with unextrude_timer := RTime.fin 0,
                                verify_flow_timer := RTime.fin 0 },
                      [Effect.updateTimer TimerId.unextrude (RTime.fin 0),
                       Effect.updateTimer TimerId.verifyFlow (RTime.fin 0)])
                  else
                    ({ st2 with unextrude_timer := RTime.fin 0 },
                      [Effect.updateTimer TimerId.unextrude (RTime.fin 0)])
                else (st2, [])
              let verifyArm : State × List Effect :=
                if cfg.switch_sensor then
                  ({ timerArm.1 with verify_switch_timer := RTime.fin (0 + 5) },
                    [Effect.respondInfo
                      "[UNLOAD FILAMENT] Starting filament switch sensor unload verification in 10 seconds",
                     Effect.updateTimer TimerId.verifySwitch (RTime.fin (0 + 5))])
                else (timerArm.1, [])
              (Outcome.ok, verifyArm.1, tr2 ++ cutterSeg ++ timerArm.2 ++ verifyArm.2)

/-- Runs the unextrude timer as the reactor would: fire the callback, follow
the returned waketime, stop when the callback returns NEVER (fuel-bounded). -/
def pulseLoop (cfg : Cfg) (env : Env) : Nat → State → ℚ → State × List Effect
  | 0, st, _ => (st, [])
  | Nat.succ n, st, t =>
    let r := unextrude cfg env st t
    match r.next with
    | RTime.never => (r.state, r.trace)
    | RTime.fin t2 =>
      let p := pulseLoop cfg env n r.state t2
      (p.1, r.trace ++ p.2)

/-- Matcher for the retraction pulse motion command. -/
def isPulseMove : Effect → Bool
  | Effect.manualMove4 _ _ _ _ _ => true
  | _ => false

/-- Matcher for the effects that select or verify an extraction strategy:
the synchronous cut delegation and the three unload timers. -/
def isExtractOrVerify : Effect → Bool
  | Effect.registerCallback (CallbackId.cutCall _ _ _) => true
  | Effect.waitCompletion => true
  | Effect.updateTimer TimerId.unextrude _ => true
  | Effect.updateTimer TimerId.verifyFlow _ => true
  | Effect.updateTimer TimerId.verifySwitch _ => true
  | _ => false

end UnloadFilament

/-! Concrete fixtures used as inputs of witnesses and counterexamples. -/

/-- A representative cutter configuration (defaults of __init__, no bucket). -/
def cfgCut0 : CutterSensor.Cfg :=
  { extrude_length_mm := 5, retract_length_mm := -5, retract_to_cutter_sensor := -10,
    extrude_speed := 2, travel_speed := 100, cut_speed := 100,
    cutter_position := (10, 20), pre_cutter_position := (5, 20),
    bucked_position_xy := none, insert_gcode := true, runout_gcode := true,
    event_delay := 3/10, pause_delay := 1/2, runout_pause := false,
    custom_boundary := false }

/-- A cut run on an unhomed printer whose G28 homing script raises. -/
def envCutHomeFail : CutterSensor.CutEnv :=
  { toolhead := true, monotonic := 0, homed := false, home_raises := true,
    homed_after := false, shutdown := false, heat_polls := 0, heat_raises := false,
    move_raises := false, pos := ⟨0, 0, 0, 0⟩, extrude_factor := 1 }

/-- Fresh cutter-sensor state (after klippy:ready, nothing running). -/
def stCut0 : CutterSensor.State :=
  { filament_present := true, sensor_enabled := 1, min_event_systime := RTime.fin 2,
    is_cutting := false, unextrude_to_sensor_timer := RTime.never, prev_pos := none }

/-- Cutter-sensor state with a cut already in flight. -/
def stCutBusy : CutterSensor.State :=
  { filament_present := true, sensor_enabled := 1, min_event_systime := RTime.fin 2,
    is_cutting := true, unextrude_to_sensor_timer := RTime.fin 0, prev_pos := none }

/-- A minimal unload configuration: no IDEX, no cutter, no sensors, no budget. -/
def cfgU0 : UnloadFilament.Cfg :=
  { idex := false, has_custom_boundary := false, travel_speed := 100, bucket := false,
    park := none, unload_speed := 50, timeout := none, cutter := false,
    flow_sensor := false, switch_sensor := false }

/-- An unload run where setting the target temperature raises. -/
def envUHeatFail : UnloadFilament.Env :=
  { toolhead := true, homed := true, home_raises := false, heat_raises := true,
    bucket_move_raises := false, move_raises := false, idle_printing := false,
    is_paused := false, has_file := false, pause_macro := true,
    idle_or_pause_missing := false, switch_detected := false,
    pos := ⟨0, 0, 0, 0⟩, extrude_factor := 1 }

/-- Fresh unload state (no unload in flight). -/
def stU0 : UnloadFilament.State :=
  { unload_started := false, unextrude_count := 0, unextrude_timer := RTime.never,
    verify_flow_timer := RTime.never, verify_switch_timer := RTime.never }

/-- Unload state with an unload already in flight. -/
def stUBusy : UnloadFilament.State :=
  { unload_started := true, unextrude_count := 0, unextrude_timer := RTime.fin 0,
    verify_flow_timer := RTime.never, verify_switch_timer := RTime.never }

/-- Matcher for the unload end notification, used to count its emissions. -/
def isEndEvent : Effect → Bool
  | Effect.sendEvent t => t == "unload_filament:end"
  | _ => false

/-- Cutter-sensor state whose Quiet Period deadline is still in the future. -/
def stCutQuiet : CutterSensor.State :=
  { filament_present := false, sensor_enabled := 1, min_event_systime := RTime.fin 10,
    is_cutting := false, unextrude_to_sensor_timer := RTime.never, prev_pos := none }

/-- A sensor event delivered at time 5, idle machine, no operation running. -/
def envSensorQuiet : CutterSensor.SensorEnv :=
  { monotonic := 5, print_stats_exists := true, print_stats_printing := false,
    idle_timeout_printing := false, load_obj := some false, unload_obj := some false }

/-- Cutter-sensor state whose Quiet Period deadline has already passed. -/
def stCutActiveMin : CutterSensor.State :=
  { filament_present := false, sensor_enabled := 1, min_event_systime := RTime.fin 0,
    is_cutting := false, unextrude_to_sensor_timer := RTime.never, prev_pos := none }

/-- A sensor event delivered at time 5 while an unload is in progress. -/
def envSensorUnloadActive : CutterSensor.SensorEnv :=
  { monotonic := 5, print_stats_exists := true, print_stats_printing := false,
    idle_timeout_printing := false, load_obj := some false, unload_obj := some true }

/-- A sensor event delivered at time 5 on an idle machine with no operation
running (the insertion/runout reaction branches apply). -/
def envSensorIdle : CutterSensor.SensorEnv :=
  { monotonic := 5, print_stats_exists := true, print_stats_printing := false,
    idle_timeout_printing := false, load_obj := none, unload_obj := none }

/-- Unload configuration for the pulse-budget scenario: ceiling 5, no cutter,
no sensors. -/
def cfgU5 : UnloadFilament.Cfg :=
  { idex := false, has_custom_boundary := false, travel_speed := 100, bucket := false,
    park := none, unload_speed := 50, timeout := some 5, cutter := false,
    flow_sensor := false, switch_sensor := false }

/-- Unload configuration with both a cutter and a pulse budget and a switch
sensor configured (the cutter must take priority). -/
def cfgUCut : UnloadFilament.Cfg :=
  { idex := false, has_custom_boundary := false, travel_speed := 100, bucket := false,
    park := none, unload_speed := 50, timeout := some 5, cutter := true,
    flow_sensor := false, switch_sensor := true }

/-- An unload run on a homed, connected printer where nothing raises. -/
def envUBenign : UnloadFilament.Env :=
  { toolhead := true, homed := true, home_raises := false, heat_raises := false,
    bucket_move_raises := false, move_raises := false, idle_printing := false,
    is_paused := false, has_file := false, pause_macro := true,
    idle_or_pause_missing := false, switch_detected := true,
    pos := ⟨0, 0, 0, 0⟩, extrude_factor := 1 }

/-- The benign run while the machine is actively printing an SD file and is
not paused. -/
def envUPrinting : UnloadFilament.Env :=
  { envUBenign with idle_printing := true, has_file := true }

/-- Unload state whose pulse counter has exceeded the ceiling 5. -/
def stUOverBudget : UnloadFilament.State :=
  { unload_started := true, unextrude_count := 6, unextrude_timer := RTime.fin 0,
    verify_flow_timer := RTime.never, verify_switch_timer := RTime.never }

/-! Claim theorems. -/

/-- C1: the claim states that every terminal path of `cut` and of
`cmd_UNLOAD_FILAMENT` ends with the operation's guard flag false.  The code
violates its own stated invariant (spec section 3 and the error policy of
section 7): a homing failure propagates out of `cut` with `is_cutting` still
true, and a heating failure propagates out of `cmd_UNLOAD_FILAMENT` with
`unload_started` still true, permanently disabling the operation.  This
theorem evaluates both failing inputs. -/
theorem guard_leak_on_failure_paths :
    ((CutterSensor.cut cfgCut0 envCutHomeFail stCut0 false false 220).1.isErr = true ∧
      (CutterSensor.cut cfgCut0 envCutHomeFail stCut0 false false 220).2.1.is_cutting = true ∧
      stCut0.is_cutting = false) ∧
    ((UnloadFilament.cmd_UNLOAD_FILAMENT cfgU0 envUHeatFail stU0 250 none).1.isErr = true ∧
      (UnloadFilament.cmd_UNLOAD_FILAMENT cfgU0 envUHeatFail stU0 250 none).2.1.unload_started = true ∧
      stU0.unload_started = false) := by
  decide

/-- C2: invoking `cut` while `is_cutting` is true reports "already cutting"
and returns with the state unchanged and no motion or heat command issued;
invoking `cmd_UNLOAD_FILAMENT` (on a connected printer) while
`unload_started` is true likewise only reports and returns.  The guard
remains true because the state is returned unchanged. -/
theorem reentrancy_rejected_no_side_effects :
    (∀ (cfg : CutterSensor.Cfg) (env : CutterSensor.CutEnv) (st : CutterSensor.State)
        (rlp offh : Bool) (temp : ℚ), st.is_cutting = true →
      CutterSensor.cut cfg env st rlp offh temp =
        (Outcome.ok, st, [Effect.respondInfo "[CUTTER] Already cutting filament"])) ∧
    (∀ (cfg : UnloadFilament.Cfg) (env : UnloadFilament.Env) (st : UnloadFilament.State)
        (temp : ℚ) (tha : Option String),
      env.toolhead = true → st.unload_started = true →
      UnloadFilament.cmd_UNLOAD_FILAMENT cfg env st temp tha =
        (Outcome.ok, st, [Effect.respondInfo "Printer already unloading filament"])) := by
  constructor
  · intro cfg env st rlp offh temp h
    simp [CutterSensor.cut, h]
  · intro cfg env st temp tha ht h
    simp [UnloadFilament.cmd_UNLOAD_FILAMENT, ht, h]

/-- Witness for C2 at concrete busy states. -/
theorem reentrancy_rejected_no_side_effects_witness :
    CutterSensor.cut cfgCut0 envCutHomeFail stCutBusy false false 220 =
      (Outcome.ok, stCutBusy, [Effect.respondInfo "[CUTTER] Already cutting filament"]) ∧
    UnloadFilament.cmd_UNLOAD_FILAMENT cfgU0 envUHeatFail stUBusy 250 none =
      (Outcome.ok, stUBusy, [Effect.respondInfo "Printer already unloading filament"]) :=
  ⟨reentrancy_rejected_no_side_effects.1 cfgCut0 envCutHomeFail stCutBusy false false 220 rfl,
   reentrancy_rejected_no_side_effects.2 cfgU0 envUHeatFail stUBusy 250 none rfl rfl⟩

/-- C8: the claim states that the snapshot pushed by save_state is popped by
restore_state exactly once before the unload ends on every exit path
including the error path.  The code violates the stated invariant: when
heating raises after the snapshot was pushed, cmd_UNLOAD_FILAMENT aborts
without popping it and without ever reaching unload_end.  This theorem
evaluates that failing input: the error outcome with the SAVE script in the
trace, no RESTORE script, and no end notification. -/
theorem saved_state_unbalanced_on_error :
    (UnloadFilament.cmd_UNLOAD_FILAMENT cfgU0 envUHeatFail stU0 250 none).1.isErr = true ∧
    Effect.runScript "SAVE_GCODE_STATE NAME=_UNLOAD_STATE\nM400" ∈
      (UnloadFilament.cmd_UNLOAD_FILAMENT cfgU0 envUHeatFail stU0 250 none).2.2 ∧
    Effect.runScript "RESTORE_GCODE_STATE NAME=_UNLOAD_STATE MOVE=1 MOVE_SPEED=100\nM400" ∉
      (UnloadFilament.cmd_UNLOAD_FILAMENT cfgU0 envUHeatFail stU0 250 none).2.2 ∧
    Effect.sendEvent "unload_filament:end" ∉
      (UnloadFilament.cmd_UNLOAD_FILAMENT cfgU0 envUHeatFail stU0 250 none).2.2 := by
  decide

/-- C9: calling unload_end with the guard already clear is a no-op returning
False, with no restore, heater, or motion action; when the guard is set, the
completion runs, emits the end notification exactly once, clears the guard,
and a second call in a row is a no-op that re-emits nothing. -/
theorem unload_end_idempotent_completion :
    ∀ (cfg : UnloadFilament.Cfg) (st : UnloadFilament.State),
      (st.unload_started = false → UnloadFilament.unload_end cfg st = (false, st, [])) ∧
      (st.unload_started = true →
        (UnloadFilament.unload_end cfg st).1 = true ∧
        (UnloadFilament.unload_end cfg st).2.1.unload_started = false ∧
        (UnloadFilament.unload_end cfg st).2.2.countP isEndEvent = 1 ∧
        UnloadFilament.unload_end cfg (UnloadFilament.unload_end cfg st).2.1 =
          (false, (UnloadFilament.unload_end cfg st).2.1, [])) := by
  intro cfg st
  constructor
  · intro h
    simp [UnloadFilament.unload_end, h]
  · intro h
    refine ⟨by simp [UnloadFilament.unload_end, h], by simp [UnloadFilament.unload_end, h],
            ?_, by simp [UnloadFilament.unload_end, h]⟩
    by_cases hI : cfg.idex <;> by_cases hB : cfg.has_custom_boundary <;>
      simp [UnloadFilament.unload_end, UnloadFilament.restore_state_trace, h, hI, hB,
        isEndEvent, List.countP_cons, List.countP_append]

/-- Witness for C9 at a concrete in-flight unload state. -/
theorem unload_end_idempotent_completion_witness :
    (UnloadFilament.unload_end cfgU0 stUBusy).1 = true ∧
    (UnloadFilament.unload_end cfgU0 stUBusy).2.1.unload_started = false ∧
    (UnloadFilament.unload_end cfgU0 stUBusy).2.2.countP isEndEvent = 1 ∧
    UnloadFilament.unload_end cfgU0 (UnloadFilament.unload_end cfgU0 stUBusy).2.1 =
      (false, (UnloadFilament.unload_end cfgU0 stUBusy).2.1, []) :=
  (unload_end_idempotent_completion cfgU0 stUBusy).2 rfl

/-- C10: disabling the sensor via SET_FILAMENT_SENSOR does not change the
behaviour of cutter_sensor_callback (the enabled check in the callback is
commented out in the source): for every transition the resulting state
differs only in the preserved `sensor_enabled` field and the effect trace is
identical; the flag only changes the `enabled` field of get_status. -/
theorem sensor_enabled_noninterference :
    (∀ (cfg : CutterSensor.Cfg) (st : CutterSensor.State) (env : CutterSensor.SensorEnv)
        (s : Bool) (v : Int),
      CutterSensor.cutter_sensor_callback cfg { st with sensor_enabled := v } env s =
        ({ (CutterSensor.cutter_sensor_callback cfg st env s).1 with sensor_enabled := v },
          (CutterSensor.cutter_sensor_callback cfg st env s).2)) ∧
    (∀ (st : CutterSensor.State) (v : Int),
      CutterSensor.get_status (CutterSensor.cmd_SET_FILAMENT_SENSOR st v) =
        (st.filament_present, v != 0) ∧
      CutterSensor.cmd_SET_FILAMENT_SENSOR st v = { st with sensor_enabled := v }) := by
  constructor
  · intro cfg st env s v
    cases st
    unfold CutterSensor.cutter_sensor_callback
    dsimp only
    split_ifs <;> rfl
  · intro st v
    exact ⟨rfl, rfl⟩

/-- C4: the claim states that a presence transition arriving before the Quiet
Period deadline is a complete no-op that changes no stored state.  It is
false on the code: `filament_present` is assigned before the deadline check
(cutter_sensor.py line 385), so the suppressed transition at time 5 with
deadline 10 flips the stored presence even though it emits nothing. -/
theorem quiet_period_not_noop_counterexample :
    (CutterSensor.cutter_sensor_callback cfgCut0 stCutQuiet envSensorQuiet true).1.filament_present = true ∧
    stCutQuiet.filament_present = false ∧
    (CutterSensor.cutter_sensor_callback cfgCut0 stCutQuiet envSensorQuiet true).2 = [] := by
  decide

/-- C4 (amended): a transition equal to the stored presence is a complete
no-op; a differing transition arriving before the Quiet Period deadline emits
no event, runs no script and schedules no reaction, but it does update the
stored presence to the new state. -/
theorem quiet_period_suppression_amended :
    ∀ (cfg : CutterSensor.Cfg) (st : CutterSensor.State) (env : CutterSensor.SensorEnv)
      (s : Bool),
      (s = st.filament_present →
        CutterSensor.cutter_sensor_callback cfg st env s = (st, [])) ∧
      (s ≠ st.filament_present →
        RTime.ltTime env.monotonic st.min_event_systime = true →
        CutterSensor.cutter_sensor_callback cfg st env s =
          ({ st with filament_present := s }, [])) := by
  intro cfg st env s
  constructor
  · intro h
    simp [CutterSensor.cutter_sensor_callback, h]
  · intro h hlt
    simp [CutterSensor.cutter_sensor_callback, h, hlt]

/-- Witness for the amended C4 at the concrete suppressed transition. -/
theorem quiet_period_suppression_amended_witness :
    CutterSensor.cutter_sensor_callback cfgCut0 stCutQuiet envSensorQuiet true =
      ({ stCutQuiet with filament_present := true }, []) :=
  (quiet_period_suppression_amended cfgCut0 stCutQuiet envSensorQuiet true).2
    (by decide) (by decide)

/-- C5: the claim states that every branch of cutter_sensor_callback with an
externally visible reaction advances the Quiet Period deadline by event_delay
before the reaction returns.  It is false on the code: the load/unload-active
branch emits the presence notification and leaves `min_event_systime`
untouched (no reaction callback is scheduled, so _exec_gcode never runs). -/
theorem deadline_not_advanced_counterexample :
    Effect.sendEvent "cutter_sensor:filament_present" ∈
      (CutterSensor.cutter_sensor_callback cfgCut0 stCutActiveMin envSensorUnloadActive true).2 ∧
    (CutterSensor.cutter_sensor_callback cfgCut0 stCutActiveMin envSensorUnloadActive true).1.min_event_systime
      = stCutActiveMin.min_event_systime := by
  decide

/-- C5 (amended): only the branches that schedule the insertion or runout
reaction advance the deadline, in two steps: the callback parks it at NEVER,
and the scheduled reaction's _exec_gcode then sets it to the reaction's
completion time plus event_delay (even when the macro script fails).  The
load/unload-active branch never changes the deadline. -/
theorem deadline_advance_amended :
    (∀ (cfg : CutterSensor.Cfg) (st : CutterSensor.State) (env : CutterSensor.SensorEnv)
        (s : Bool),
      (CutterSensor.activeFlag env.load_obj || CutterSensor.activeFlag env.unload_obj) = true →
      (CutterSensor.cutter_sensor_callback cfg st env s).1.min_event_systime =
        st.min_event_systime) ∧
    (∀ (cfg : CutterSensor.Cfg) (st : CutterSensor.State) (env : CutterSensor.SensorEnv)
        (s : Bool) (cb : CallbackId),
      Effect.registerCallback cb ∈ (CutterSensor.cutter_sensor_callback cfg st env s).2 →
      (CutterSensor.cutter_sensor_callback cfg st env s).1.min_event_systime = RTime.never) ∧
    (∀ (cfg : CutterSensor.Cfg) (st : CutterSensor.State) (mono : ℚ)
        (pre tmpl : String) (fails : Bool),
      (CutterSensor.exec_gcode cfg st mono pre tmpl fails).1.min_event_systime =
        RTime.fin (mono + cfg.event_delay)) := by
  refine ⟨?_, ?_, ?_⟩
  · intro cfg st env s hact
    cases st
    unfold CutterSensor.cutter_sensor_callback
    dsimp only
    split_ifs <;> simp_all
  · intro cfg st env s cb hmem
    cases st
    unfold CutterSensor.cutter_sensor_callback at hmem ⊢
    dsimp only at hmem ⊢
    split_ifs at hmem ⊢ <;> simp_all [CutterSensor.normalizeScripts]
  · intro cfg st mono pre tmpl fails
    rfl

/-- Witness for the amended C5 at concrete inputs: an unload-active event
leaves the deadline alone, an idle insertion event parks it at NEVER, and
exec_gcode sets it to time-of-completion plus event_delay. -/
theorem deadline_advance_amended_witness :
    (CutterSensor.cutter_sensor_callback cfgCut0 stCutActiveMin envSensorUnloadActive true).1.min_event_systime
      = stCutActiveMin.min_event_systime ∧
    (CutterSensor.cutter_sensor_callback cfgCut0 stCutActiveMin envSensorIdle true).1.min_event_systime
      = RTime.never ∧
    (CutterSensor.exec_gcode cfgCut0 stCut0 7 "" "M117" false).1.min_event_systime =
      RTime.fin (7 + cfgCut0.event_delay) :=
  ⟨deadline_advance_amended.1 cfgCut0 stCutActiveMin envSensorUnloadActive true (by decide),
   deadline_advance_amended.2.1 cfgCut0 stCutActiveMin envSensorIdle true
     CallbackId.insertHandler (by decide),
   deadline_advance_amended.2.2 cfgCut0 stCut0 7 "" "M117" false⟩

/-- Helper: the completion routine issues no retraction pulse motion. -/
theorem unload_end_no_pulse_moves (cfg : UnloadFilament.Cfg) (st : UnloadFilament.State) :
    (UnloadFilament.unload_end cfg st).2.2.countP UnloadFilament.isPulseMove = 0 := by
  by_cases h : st.unload_started <;> by_cases hI : cfg.idex <;>
    by_cases hB : cfg.has_custom_boundary <;>
    simp [UnloadFilament.unload_end, UnloadFilament.restore_state_trace, h, hI, hB,
      UnloadFilament.isPulseMove, List.countP_append, List.countP_cons]

/-- C3: the claim states the retraction pulse loop stops exactly when the
switch sensor reports absent or the counter exceeds the ceiling N, and that
with N = 5 and no sensors, unload_end runs automatically after the 5th pulse.
The stop condition is right, but the scenario is off by one: the ceiling
check precedes the increment, so the tick after the 5th pulse fires a 6th
pulse instead of completing.  Running the loop for 6 ticks from a fresh start
shows 6 pulses, no end notification yet, and the guard still set. -/
theorem pulse_budget_sixth_pulse_counterexample :
    (UnloadFilament.pulseLoop cfgU5 envUBenign 6 stUBusy 0).2.countP
        UnloadFilament.isPulseMove = 6 ∧
    Effect.sendEvent "unload_filament:end" ∉
      (UnloadFilament.pulseLoop cfgU5 envUBenign 6 stUBusy 0).2 ∧
    (UnloadFilament.pulseLoop cfgU5 envUBenign 6 stUBusy 0).1.unload_started = true := by
  decide

/-- C3 (amended): a tick of the pulse timer with the counter above the
ceiling fires no pulse, runs unload_end and cancels itself; a tick with the
counter at most the ceiling fires exactly one pulse, increments the counter
and reschedules after 10/unload_speed; a verify tick with the switch sensor
absent cancels the pulse timer and schedules unload_end, while a detected
reading merely re-polls after 1.25s; with ceiling 5 and no sensors, the loop
fires exactly 6 pulses and then unload_end runs automatically, clearing the
guard (one pulse more than the claim's scenario states). -/
theorem pulse_loop_stop_conditions_amended :
    (∀ (cfg : UnloadFilament.Cfg) (env : UnloadFilament.Env) (st : UnloadFilament.State)
        (t : ℚ) (n : ℕ), cfg.timeout = some n → st.unload_started = true →
        st.unextrude_count > n →
      (UnloadFilament.unextrude cfg env st t).next = RTime.never ∧
      (UnloadFilament.unextrude cfg env st t).trace.countP UnloadFilament.isPulseMove = 0 ∧
      (UnloadFilament.unextrude cfg env st t).state.unload_started = false) ∧
    (∀ (cfg : UnloadFilament.Cfg) (env : UnloadFilament.Env) (st : UnloadFilament.State)
        (t : ℚ) (n : ℕ), cfg.timeout = some n → st.unload_started = true →
        st.unextrude_count ≤ n → env.toolhead = true → env.move_raises = false →
      (UnloadFilament.unextrude cfg env st t).next = RTime.fin (t + 10 / cfg.unload_speed) ∧
      (UnloadFilament.unextrude cfg env st t).trace.countP UnloadFilament.isPulseMove = 1 ∧
      (UnloadFilament.unextrude cfg env st t).state.unextrude_count =
        st.unextrude_count + 1) ∧
    (∀ (cfg : UnloadFilament.Cfg) (env : UnloadFilament.Env) (st : UnloadFilament.State)
        (t : ℚ), st.unload_started = true → env.switch_detected = false →
      UnloadFilament.verify_switch_sensor_state cfg env st t =
        ⟨Outcome.ok, { st with unextrude_timer := RTime.never }, RTime.never,
          [Effect.updateTimer TimerId.unextrude RTime.never,
           Effect.registerCallback CallbackId.unloadEnd]⟩) ∧
    (∀ (cfg : UnloadFilament.Cfg) (env : UnloadFilament.Env) (st : UnloadFilament.State)
        (t : ℚ), st.unload_started = true → env.switch_detected = true →
      UnloadFilament.verify_switch_sensor_state cfg env st t =
        ⟨Outcome.ok, st, RTime.fin (t + 5/4), []⟩) ∧
    ((UnloadFilament.pulseLoop cfgU5 envUBenign 100 stUBusy 0).2.countP
        UnloadFilament.isPulseMove = 6 ∧
      Effect.sendEvent "unload_filament:end" ∈
        (UnloadFilament.pulseLoop cfgU5 envUBenign 100 stUBusy 0).2 ∧
      (UnloadFilament.pulseLoop cfgU5 envUBenign 100 stUBusy 0).1.unload_started = false) := by
  refine ⟨?_, ?_, ?_, ?_, by decide⟩
  · intro cfg env st t n hto hst hgt
    have hpulse := unload_end_no_pulse_moves cfg
      { st with verify_switch_timer := RTime.never }
    refine ⟨?_, ?_, ?_⟩ <;>
      simp_all [UnloadFilament.unextrude, UnloadFilament.unload_end, hto, hst, hgt,
        UnloadFilament.isPulseMove, List.countP_cons]
  · intro cfg env st t n hto hst hle ht hm
    refine ⟨?_, ?_, ?_⟩ <;>
      simp [UnloadFilament.unextrude, UnloadFilament.move_extruder_mm, hto, hst,
        Nat.not_lt.mpr hle, ht, hm, UnloadFilament.isPulseMove, List.countP_cons]
  · intro cfg env st t hst hsw
    simp [UnloadFilament.verify_switch_sensor_state, hst, hsw]
  · intro cfg env st t hst hsw
    simp [UnloadFilament.verify_switch_sensor_state, hst, hsw]

/-- Witness for the amended C3: a tick over budget completes and cancels; a
tick within budget pulses once and reschedules. -/
theorem pulse_loop_stop_conditions_amended_witness :
    ((UnloadFilament.unextrude cfgU5 envUBenign stUOverBudget 0).next = RTime.never ∧
      (UnloadFilament.unextrude cfgU5 envUBenign stUOverBudget 0).trace.countP
        UnloadFilament.isPulseMove = 0 ∧
      (UnloadFilament.unextrude cfgU5 envUBenign stUOverBudget 0).state.unload_started = false) ∧
    ((UnloadFilament.unextrude cfgU5 envUBenign stUBusy 0).next =
        RTime.fin (0 + 10 / cfgU5.unload_speed) ∧
      (UnloadFilament.unextrude cfgU5 envUBenign stUBusy 0).trace.countP
        UnloadFilament.isPulseMove = 1 ∧
      (UnloadFilament.unextrude cfgU5 envUBenign stUBusy 0).state.unextrude_count =
        stUBusy.unextrude_count + 1) :=
  ⟨pulse_loop_stop_conditions_amended.1 cfgU5 envUBenign stUOverBudget 0 5 rfl rfl
      (by decide),
   pulse_loop_stop_conditions_amended.2.1 cfgU5 envUBenign stUBusy 0 5 rfl rfl
      (by decide) rfl rfl⟩

/-- C6: when an unload proceeds (nothing raises, guard initially clear),
exactly one extraction strategy appears in the command stream, in priority
order: with a cutter configured only the synchronous cut delegation (with
return_last_pos=False, off_heaters=False) followed by the blocking wait; with
no cutter but a pulse budget only the retraction (and optional flow) timer
arming; otherwise none.  Switch-sensor verification is armed strictly after
the selected strategy. -/
theorem extraction_strategy_exclusive :
    ∀ (cfg : UnloadFilament.Cfg) (env : UnloadFilament.Env) (st : UnloadFilament.State)
      (temp : ℚ) (tha : Option String),
      env.toolhead = true → env.home_raises = false → env.heat_raises = false →
      env.bucket_move_raises = false → st.unload_started = false →
      (cfg.idex = true → tha.isSome = true) →
      (UnloadFilament.cmd_UNLOAD_FILAMENT cfg env st temp tha).2.2.filter
          UnloadFilament.isExtractOrVerify =
        (if cfg.cutter then
          [Effect.registerCallback (CallbackId.cutCall false false temp),
           Effect.waitCompletion]
        else if cfg.timeout.isSome then
          Effect.updateTimer TimerId.unextrude (RTime.fin 0) ::
            (if cfg.flow_sensor then
              [Effect.updateTimer TimerId.verifyFlow (RTime.fin 0)]
            else [])
        else []) ++
        (if cfg.switch_sensor then
          [Effect.updateTimer TimerId.verifySwitch (RTime.fin (0 + 5))]
        else []) := by
  intro cfg env st temp tha ht hh hhe hb hs hidex
  cases hI : cfg.idex with
  | false =>
    cases hc : cfg.cutter <;> cases hto : cfg.timeout <;> cases hf : cfg.flow_sensor <;>
      cases hw : cfg.switch_sensor <;> cases hbk : cfg.bucket <;> cases hm : env.homed <;>
      simp [UnloadFilament.cmd_UNLOAD_FILAMENT, UnloadFilament.home_needed,
        UnloadFilament.heat_and_wait, UnloadFilament.save_state_trace,
        UnloadFilament.disable_sensors_trace, UnloadFilament.isExtractOrVerify,
        ht, hh, hhe, hb, hs, hI, hc, hto, hf, hw, hbk, hm,
        List.filter_append, List.filter_cons]
  | true =>
    obtain ⟨s, rfl⟩ := Option.isSome_iff_exists.mp (hidex hI)
    cases hc : cfg.cutter <;> cases hto : cfg.timeout <;> cases hf : cfg.flow_sensor <;>
      cases hw : cfg.switch_sensor <;> cases hbk : cfg.bucket <;> cases hm : env.homed <;>
      simp [UnloadFilament.cmd_UNLOAD_FILAMENT, UnloadFilament.home_needed,
        UnloadFilament.heat_and_wait, UnloadFilament.save_state_trace,
        UnloadFilament.disable_sensors_trace, UnloadFilament.isExtractOrVerify,
        ht, hh, hhe, hb, hs, hI, hc, hto, hf, hw, hbk, hm,
        List.filter_append, List.filter_cons]

/-- Witness for C6 with both a cutter and a budget and a switch sensor
configured: only the cut delegation runs, then verification is armed. -/
theorem extraction_strategy_exclusive_witness :
    (UnloadFilament.cmd_UNLOAD_FILAMENT cfgUCut envUBenign stU0 250 none).2.2.filter
        UnloadFilament.isExtractOrVerify =
      [Effect.registerCallback (CallbackId.cutCall false false 250),
       Effect.waitCompletion,
       Effect.updateTimer TimerId.verifySwitch (RTime.fin (0 + 5))] := by
  have h := extraction_strategy_exclusive cfgUCut envUBenign stU0 250 none
    rfl rfl rfl rfl rfl (by decide)
  simpa [cfgUCut] using h

/-- C7: the claim states that cmd_UNLOAD_FILAMENT issues a pause instead of
unloading when the machine is printing, not paused, and a file is active.
It is false on the code: conditional_pause is never invoked by
cmd_UNLOAD_FILAMENT, which proceeds with the full unload sequence (start
notification, no PAUSE script) in exactly that situation. -/
theorem unload_ignores_printing_counterexample :
    envUPrinting.idle_printing = true ∧ envUPrinting.is_paused = false ∧
    envUPrinting.has_file = true ∧
    Effect.sendEvent "unload_filament:start" ∈
      (UnloadFilament.cmd_UNLOAD_FILAMENT cfgU0 envUPrinting stU0 250 none).2.2 ∧
    Effect.runScript "PAUSE" ∉
      (UnloadFilament.cmd_UNLOAD_FILAMENT cfgU0 envUPrinting stU0 250 none).2.2 ∧
    (UnloadFilament.cmd_UNLOAD_FILAMENT cfgU0 envUPrinting stU0 250 none).1 = Outcome.ok := by
  decide

/-- C7 (amended): cmd_UNLOAD_FILAMENT never consults the print state (its
result is invariant under every change of the printing, paused, file and
pause-macro observations); the printing-conflict guard exists only in the
uncalled helper conditional_pause, which issues PAUSE exactly when printing,
not paused, a file is active, and an unload is already in progress. -/
theorem conditional_pause_uncalled_amended :
    (∀ (cfg : UnloadFilament.Cfg) (env : UnloadFilament.Env) (st : UnloadFilament.State)
        (temp : ℚ) (tha : Option String) (a b c d e : Bool),
      UnloadFilament.cmd_UNLOAD_FILAMENT cfg
          { env with idle_printing := a, is_paused := b, has_file := c,
                     pause_macro := d, idle_or_pause_missing := e } st temp tha =
        UnloadFilament.cmd_UNLOAD_FILAMENT cfg env st temp tha) ∧
    (∀ (env : UnloadFilament.Env) (st : UnloadFilament.State),
      env.idle_or_pause_missing = false → env.idle_printing = true →
      env.is_paused = false → st.unload_started = true → env.has_file = true →
      env.pause_macro = true →
      UnloadFilament.conditional_pause env st =
        (Outcome.ok, some false, [Effect.runScript "PAUSE"])) ∧
    (∀ (env : UnloadFilament.Env) (st : UnloadFilament.State),
      env.idle_or_pause_missing = false → st.unload_started = false →
      UnloadFilament.conditional_pause env st = (Outcome.ok, some false, [])) := by
  refine ⟨?_, ?_, ?_⟩
  · intro cfg env st temp tha a b c d e
    cases env
    rfl
  · intro env st h1 h2 h3 h4 h5 h6
    simp [UnloadFilament.conditional_pause, h1, h2, h3, h4, h5, h6]
  · intro env st h1 h2
    simp [UnloadFilament.conditional_pause, h1, h2]

/-- Witness for the amended C7: the print-state fields do not change the
result of a concrete unload, and conditional_pause does issue PAUSE for an
in-progress unload during an active print. -/
theorem conditional_pause_uncalled_amended_witness :
    (UnloadFilament.cmd_UNLOAD_FILAMENT cfgU0
        { envUBenign with idle_printing := true, is_paused := false, has_file := true,
                          pause_macro := true, idle_or_pause_missing := false }
        stU0 250 none =
      UnloadFilament.cmd_UNLOAD_FILAMENT cfgU0 envUBenign stU0 250 none) ∧
    UnloadFilament.conditional_pause envUPrinting stUBusy =
      (Outcome.ok, some false, [Effect.runScript "PAUSE"]) :=
  ⟨conditional_pause_uncalled_amended.1 cfgU0 envUBenign stU0 250 none
      true false true true false,
   conditional_pause_uncalled_amended.2.1 envUPrinting stUBusy rfl rfl rfl rfl rfl rfl⟩
